import Mathlib

/-!
Verification development for SQLAlchemy-boolean-search
(src/sqlalchemy_boolean_search.py).

The file shallowly embeds the module: the pyparsing grammar and
`operatorPrecedence` expression parser (including its lookahead /
fallback control flow and error-location bookkeeping), the
`Condition` / `FxnCondition` / `BoolNot` / `BoolAnd` / `BoolOr`
element classes with their module-global parameter bookkeeping, and
the `filter` / `filter_one` / `bindAndLowerValue` compilation of a
parsed tree into an SQLAlchemy-like predicate.

Modelling conventions:
* Python dicts are association lists in insertion order
  (`dictUpdate` replaces the value of an existing key in place,
  exactly like `dict.update`); the module is Python-2 era code
  (`params.keys()` is a list there, so `.count` is meaningful).
* SQLAlchemy column / clause objects are symbolic terms (`SqlExpr`,
  `SqlCond`); `func.lower`, `bindparam`, string concatenation with
  `+`, `ilike` and `any` are constructors.
* Python floats obtained by `float(raw)` are kept symbolically as
  `PyVal.floatOf raw` (no claim needs float arithmetic); `int(raw)`
  is evaluated exactly.
* Python exceptions are the error side of `Except`: the library's
  `BooleanSearchException` (with its exact message text), plus the
  interpreter-level `NameError` / `TypeError` / `AttributeError`
  that some code paths actually raise.
-/

/-- A value bound with `bindparam(name, value)`. `floatOf s` stands for
the Python float `float(s)`; conditions only ever construct it after a
successful coercion. -/
inductive PyVal where
  | strV : String → PyVal
  | intV : Int → PyVal
  | floatOf : String → PyVal
deriving DecidableEq, Repr

/-- Python-level type of a column (`field.type.python_type`). -/
inductive PyType where
  | strT | intT | floatT | decimalT | listT | boolT | datetimeT
deriving DecidableEq, Repr

/-- Declared SQL type of a column.  `text` stands for the whole
`sqltypes.String` family (TEXT / VARCHAR / String), which is exactly
what the `isinstance(field.type, TEXT) or isinstance(.., VARCHAR) or
isinstance(.., String)` chain recognises. -/
inductive SqlFieldType where
  | text | integer | float | decimal | array | boolean | dateTime
deriving DecidableEq, Repr

/-- `field.type.python_type` for each declared type. -/
def SqlFieldType.pythonType : SqlFieldType → PyType
  | .text => .strT
  | .integer => .intT
  | .float => .floatT
  | .decimal => .decimalT
  | .array => .listT
  | .boolean => .boolT
  | .dateTime => .datetimeT

/-- Symbolic SQLAlchemy column expression. -/
inductive SqlExpr where
  | field : String → String → SqlExpr      -- Table.column (owner tablename, column name)
  | lower : SqlExpr → SqlExpr              -- func.lower(e)
  | bind : String → PyVal → SqlExpr        -- bindparam(name, value)
  | lit : String → SqlExpr                 -- a plain string literal operand
  | concat : SqlExpr → SqlExpr → SqlExpr   -- string + clause concatenation
deriving DecidableEq, Repr

/-- Python comparison functions from the module-level `opdict`;
both `'='` and `'=='` map to `eq`. -/
inductive PyOp where
  | le | ge | gt | lt | ne | eq
deriving DecidableEq, Repr

/-- `opdict[op]` (all seven operator strings are keys). -/
def opdictGet : String → PyOp
  | "<=" => .le
  | ">=" => .ge
  | ">" => .gt
  | "<" => .lt
  | "!=" => .ne
  | _ => .eq     -- "==" and "=" both map to operator.eq

/-- Symbolic SQLAlchemy boolean clause.  `and_` / `or_` receive the
list of child results as produced by the Python list comprehensions,
where a child's `filter` may have returned `None`. -/
inductive SqlCond where
  | eqC : SqlExpr → SqlExpr → SqlCond
  | neC : SqlExpr → SqlExpr → SqlCond
  | ltC : SqlExpr → SqlExpr → SqlCond
  | leC : SqlExpr → SqlExpr → SqlCond
  | gtC : SqlExpr → SqlExpr → SqlCond
  | geC : SqlExpr → SqlExpr → SqlCond
  | ilike : SqlExpr → SqlExpr → SqlCond          -- column.ilike(pattern)
  | anyC : String → String → String → PyOp → SqlCond -- field.any(value, operator=opdict[op])
  | notC : Option SqlCond → SqlCond              -- not_(x)
  | andC : List (Option SqlCond) → SqlCond       -- and_(*xs)
  | orC : List (Option SqlCond) → SqlCond        -- or_(*xs)
deriving Repr

/-- The exceptions the module's code paths can raise. -/
inductive PyErr where
  | booleanSearch : String → PyErr  -- BooleanSearchException(message)
  | syntaxError : Nat → PyErr       -- BooleanSearchException("Syntax error at offset %s." % e.col)
  | nameErr : String → PyErr        -- NameError: name '...' is not defined
  | typeErr : String → PyErr        -- TypeError
  | attrErr : String → PyErr        -- AttributeError on the given attribute
deriving DecidableEq, Repr

/-- A parsed `name operator value` condition (class `Condition`).
`bindname` is computed at construction time from the module-global
parameter bookkeeping. -/
structure Condition where
  fullname : String
  basename : Option String
  name : String
  op : String
  value : String
  bindname : String
deriving DecidableEq, Repr

/-- A parsed `fxn(condition) operator value` condition
(class `FxnCondition`). -/
structure FxnCondition where
  fxnname : String
  fxncond : Condition
  op : String
  value : String
deriving DecidableEq, Repr

/-- The module-global bookkeeping (`params`, `uniqueparams`,
`functions`), threaded explicitly through the embedding. -/
structure PState where
  params : List (String × String)
  uniqueparams : List String
  functions : List FxnCondition
deriving DecidableEq, Repr

def emptyPState : PState := ⟨[], [], []⟩

/-- `key in dict`. -/
def dictMem (d : List (String × String)) (k : String) : Bool :=
  d.any (fun p => p.1 == k)

/-- `dict.update({k: v})`: replace the value in place if the key is
present (insertion order preserved), else append. -/
def dictUpdate (d : List (String × String)) (k v : String) :
    List (String × String) :=
  if dictMem d k then d.map (fun p => if p.1 == k then (k, v) else p)
  else d ++ [(k, v)]

/-- `dict.keys().count(k)` (Python 2: `keys()` is a list). -/
def keysCount (d : List (String × String)) (k : String) : Nat :=
  (d.map Prod.fst).count k

/-- `fullname.split('.', 1)` when `'.' in fullname`, giving
`(basename, name)`; otherwise `(none, fullname)`. -/
def splitDot (s : String) : Option String × String :=
  if s.toList.contains '.' then
    let pre := s.toList.takeWhile (fun c => c != '.')
    let post := (s.toList.dropWhile (fun c => c != '.')).drop 1
    (some (String.mk pre), String.mk post)
  else (none, s)

/-- `Condition.__init__`: registers the full name in `uniqueparams`,
computes the bind-parameter name from the `params` dict and updates
`params` (last write wins). -/
def mkCondition (fullname op value : String) (st : PState) :
    Condition × PState :=
  let (basename, name) := splitDot fullname
  let st1 : PState := { st with uniqueparams := st.uniqueparams ++ [fullname] }
  if dictMem st1.params fullname then
    let count := keysCount st1.params fullname
    (⟨fullname, basename, name, op, value,
       fullname ++ "_" ++ toString count⟩,
     { st1 with params := dictUpdate st1.params fullname value })
  else
    (⟨fullname, basename, name, op, value, fullname⟩,
     { st1 with params := dictUpdate st1.params fullname value })

/-- Parse tree over the element classes (`Condition`, `FxnCondition`,
`BoolNot`, `BoolAnd`, `BoolOr`). -/
inductive Expr where
  | cond : Condition → Expr
  | fxn : FxnCondition → Expr
  | notE : Expr → Expr
  | andE : List Expr → Expr
  | orE : List Expr → Expr
deriving Repr

/-- `isinstance(e, FxnCondition)`. -/
def Expr.isFxn : Expr → Bool
  | .fxn _ => true
  | _ => false

/-- `BoolNot.__init__` on the group `['not', e]` (its side condition
re-writes `params[fullname]` when the child's local `name` is not a
key of `params`, which only happens for dotted names). -/
def mkBoolNot (e : Expr) (st : PState) : Expr × PState :=
  match e with
  | .cond c =>
      if dictMem st.params c.name then (.notE e, st)
      else (.notE e, { st with params := dictUpdate st.params c.fullname c.value })
  | _ => (.notE e, st)

/-- Shared body of `BoolAnd.__init__` / `BoolOr.__init__` over the
child expressions in group order (the interleaved `'and'` / `'or'`
keyword tokens are already skipped by the `condition != 'and'` test):
`FxnCondition` children go to the global `functions` list instead of
the node's `conditions`; `Condition` children whose local `name` is
missing from `params` re-write `params[fullname]`. -/
def boolSeqInit : List Expr → PState → List Expr × PState
  | [], st => ([], st)
  | e :: rest, st =>
    match e with
    | .fxn f =>
        boolSeqInit rest { st with functions := st.functions ++ [f] }
    | .cond c =>
        let st' := if dictMem st.params c.name then st
                   else { st with params := dictUpdate st.params c.fullname c.value }
        let (ch, st'') := boolSeqInit rest st'
        (.cond c :: ch, st'')
    | e' =>
        let (ch, st') := boolSeqInit rest st
        (e' :: ch, st')

def mkBoolAnd (items : List Expr) (st : PState) : Expr × PState :=
  let (ch, st') := boolSeqInit items st
  (.andE ch, st')

def mkBoolOr (items : List Expr) (st : PState) : Expr × PState :=
  let (ch, st') := boolSeqInit items st
  (.orE ch, st')

/-! ## The pyparsing grammar

Terminals follow the module's element definitions:
`name = Word(alphas + '._', alphanums + '._')`,
`operator = Regex("==|!=|<=|>=|<|>|=")` (ordered alternation),
`value = Word(alphanums + '-_.*') | QuotedString('"') | number`
with `number = Regex(r"[+-]?\d+(:?\.\d*)?(:?[eE][+-]?\d+)?")`
(the `(:?` groups are kept exactly as written: an optional colon,
then `.` resp. `[eE]`), and pyparsing's default whitespace skipping
over space, newline and tab before every terminal.  Failures carry
the 0-based location at which the terminal failed (after whitespace
skipping), and `MatchFirst` alternation keeps the furthest failure
location, as pyparsing does. -/

def isWsChar (c : Char) : Bool := c == ' ' || c == '\n' || c == '\t'

def leadWs : List Char → Nat
  | [] => 0
  | c :: rest => if isWsChar c then leadWs rest + 1 else 0

def skipWs (cs : List Char) (p : Nat) : Nat := p + leadWs (cs.drop p)

def nameInit (c : Char) : Bool := c.isAlpha || c == '.' || c == '_'
def nameBody (c : Char) : Bool := c.isAlphanum || c == '.' || c == '_'
def valueWordChar (c : Char) : Bool :=
  c.isAlphanum || c == '-' || c == '_' || c == '.' || c == '*'

/-- `Word(initChars, bodyChars)` at a position (no whitespace skip). -/
def pWordAt (initP bodyP : Char → Bool) (cs : List Char) (p : Nat) :
    Except Nat (String × Nat) :=
  match cs.get? p with
  | some c =>
      if initP c then
        let body := (cs.drop (p + 1)).takeWhile bodyP
        .ok (String.mk (c :: body), p + 1 + body.length)
      else .error p
  | none => .error p

/-- `name`. -/
def pName (cs : List Char) (pos : Nat) : Except Nat (String × Nat) :=
  pWordAt nameInit nameBody cs (skipWs cs pos)

/-- `Word(alphas)` (the function name of a function condition). -/
def pFxnName (cs : List Char) (pos : Nat) : Except Nat (String × Nat) :=
  pWordAt Char.isAlpha Char.isAlpha cs (skipWs cs pos)

def litAt (cs : List Char) (p : Nat) (lit : List Char) : Bool :=
  (cs.drop p).take lit.length == lit

/-- `operator`: the regex alternation tried left to right. -/
def pOperator (cs : List Char) (pos : Nat) : Except Nat (String × Nat) :=
  let p := skipWs cs pos
  if litAt cs p ['=', '='] then .ok ("==", p + 2)
  else if litAt cs p ['!', '='] then .ok ("!=", p + 2)
  else if litAt cs p ['<', '='] then .ok ("<=", p + 2)
  else if litAt cs p ['>', '='] then .ok (">=", p + 2)
  else if litAt cs p ['<'] then .ok ("<", p + 1)
  else if litAt cs p ['>'] then .ok (">", p + 1)
  else if litAt cs p ['='] then .ok ("=", p + 1)
  else .error p

/-- `QuotedString('"')` at a position: content up to the closing
quote (not spanning line breaks), quotes stripped from the result. -/
def pQuotedAt (cs : List Char) (p : Nat) : Except Nat (String × Nat) :=
  if cs.get? p == some '"' then
    let content := (cs.drop (p + 1)).takeWhile
      (fun c => c != '"' && c != '\n' && c != '\r')
    if cs.get? (p + 1 + content.length) == some '"' then
      .ok (String.mk content, p + 2 + content.length)
    else .error p
  else .error p

/-- The `number` regex at a position (match, not full anchor). -/
def pNumberAt (cs : List Char) (p : Nat) : Except Nat (String × Nat) :=
  let q0 := if cs.get? p == some '+' || cs.get? p == some '-' then p + 1 else p
  let ds := (cs.drop q0).takeWhile Char.isDigit
  if ds.isEmpty then .error p
  else
    let q1 := q0 + ds.length
    let q2 :=
      let qc := if cs.get? q1 == some ':' then q1 + 1 else q1
      if cs.get? qc == some '.' then
        qc + 1 + ((cs.drop (qc + 1)).takeWhile Char.isDigit).length
      else q1
    let q3 :=
      let qc := if cs.get? q2 == some ':' then q2 + 1 else q2
      if cs.get? qc == some 'e' || cs.get? qc == some 'E' then
        let qs := if cs.get? (qc + 1) == some '+' || cs.get? (qc + 1) == some '-'
                  then qc + 2 else qc + 1
        let ds3 := (cs.drop qs).takeWhile Char.isDigit
        if ds3.isEmpty then q2 else qs + ds3.length
      else q2
    .ok (String.mk ((cs.drop p).take (q3 - p)), q3)

/-- `value`: word | quoted string | number (MatchFirst; all three
fail at the same post-whitespace location). -/
def pValue (cs : List Char) (pos : Nat) : Except Nat (String × Nat) :=
  let p := skipWs cs pos
  match pWordAt valueWordChar valueWordChar cs p with
  | .ok r => .ok r
  | .error _ =>
    match pQuotedAt cs p with
    | .ok r => .ok r
    | .error _ => pNumberAt cs p

/-- A single literal character token (`Suppress('(')` etc.). -/
def pCharTok (ch : Char) (cs : List Char) (pos : Nat) : Except Nat Nat :=
  let p := skipWs cs pos
  if cs.get? p == some ch then .ok (p + 1) else .error p

/-- `CaselessLiteral(kw)`. -/
def pCaseless (kw : List Char) (cs : List Char) (pos : Nat) : Except Nat Nat :=
  let p := skipWs cs pos
  let seg := (cs.drop p).take kw.length
  if seg.length == kw.length &&
     (seg.zip kw).all (fun q => q.1.toLower == q.2.toLower) then
    .ok (p + kw.length)
  else .error p

/-- Placeholder used when parsing with `doActions = false` (pyparsing
lookaheads): parse actions are not run there, and the produced value
is never inspected. -/
def dummyCondition : Condition := ⟨"", none, "", "", "", ""⟩

/-- `condition = Group(name + operator + value)` with the `Condition`
parse action (run only when `da` is set, as pyparsing only runs parse
actions outside lookaheads). -/
def pConditionRaw (da : Bool) (cs : List Char) (st : PState) (pos : Nat) :
    PState × Except Nat (Condition × Nat) :=
  match pName cs pos with
  | .error l => (st, .error l)
  | .ok (n, p1) =>
    match pOperator cs p1 with
    | .error l => (st, .error l)
    | .ok (op, p2) =>
      match pValue cs p2 with
      | .error l => (st, .error l)
      | .ok (v, p3) =>
        if da then
          let (c, st') := mkCondition n op v st
          (st', .ok (c, p3))
        else (st, .ok (dummyCondition, p3))

/-- `fxn_cond = Group(Group(Word(alphas) + LPAR + condition + RPAR)
+ operator + value)` with the `FxnCondition` parse action.  The inner
condition's parse action runs as soon as the inner group matches, so
its bookkeeping persists even when a later element fails. -/
def pFxnCond (da : Bool) (cs : List Char) (st : PState) (pos : Nat) :
    PState × Except Nat (Expr × Nat) :=
  match pFxnName cs pos with
  | .error l => (st, .error l)
  | .ok (fn, p1) =>
    match pCharTok '(' cs p1 with
    | .error l => (st, .error l)
    | .ok p2 =>
      match pConditionRaw da cs st p2 with
      | (st1, .error l) => (st1, .error l)
      | (st1, .ok (c, p3)) =>
        match pCharTok ')' cs p3 with
        | .error l => (st1, .error l)
        | .ok p4 =>
          match pOperator cs p4 with
          | .error l => (st1, .error l)
          | .ok (op, p5) =>
            match pValue cs p5 with
            | .error l => (st1, .error l)
            | .ok (v, p6) => (st1, .ok (.fxn ⟨fn, c, op, v⟩, p6))

/-- `wherecond = condition | fxn_cond`. -/
def pWherecond (da : Bool) (cs : List Char) (st : PState) (pos : Nat) :
    PState × Except Nat (Expr × Nat) :=
  match pConditionRaw da cs st pos with
  | (st1, .ok (c, p)) => (st1, .ok (.cond c, p))
  | (st1, .error l1) =>
    match pFxnCond da cs st1 pos with
    | (st2, .ok r) => (st2, .ok r)
    | (st2, .error l2) => (st2, .error (Nat.max l1 l2))

/-! ## operatorPrecedence

`expression_parser = operatorPrecedence(whereexp, [("not", 1, RIGHT,
BoolNot), ("and", 2, LEFT, BoolAnd), ("or", 2, LEFT, BoolOr)])`.

pyparsing expands this into, per level, `thisExpr = (FollowedBy(head)
+ Group(body)).setParseAction(cls) | lastExpr`.  The `FollowedBy`
lookahead parses without running parse actions; the group body then
re-parses with actions enabled.  A failing alternative or a failing
`OneOrMore` repetition keeps whatever parse actions it already ran
(pyparsing has no backtracking of side effects), which the explicit
state threading below reproduces.  `fuel` only bounds the recursion
depth; the top-level entry point supplies more than any input can
consume. -/

mutual

def pOrLevel (da : Bool) (cs : List Char) (st : PState) (pos fuel : Nat) :
    PState × Except Nat (Expr × Nat) :=
  match fuel with
  | 0 => (st, .error pos)
  | fuel + 1 =>
    match pTryMatchOr da cs st pos fuel with
    | (st1, .ok r) => (st1, .ok r)
    | (st1, .error l1) =>
      match pAndLevel da cs st1 pos fuel with
      | (st2, .ok r) => (st2, .ok r)
      | (st2, .error l2) => (st2, .error (Nat.max l1 l2))
termination_by structural fuel

def pTryMatchOr (da : Bool) (cs : List Char) (st : PState) (pos fuel : Nat) :
    PState × Except Nat (Expr × Nat) :=
  match fuel with
  | 0 => (st, .error pos)
  | fuel + 1 =>
    match pOrLook cs pos fuel with
    | .error l => (st, .error l)
    | .ok _ =>
      match pAndLevel da cs st pos fuel with
      | (st1, .error l) => (st1, .error l)
      | (st1, .ok (e1, p1)) =>
        match pCaseless ['o', 'r'] cs p1 with
        | .error l => (st1, .error l)
        | .ok p2 =>
          match pAndLevel da cs st1 p2 fuel with
          | (st2, .error l) => (st2, .error l)
          | (st2, .ok (e2, p3)) =>
            match pOrMore da cs st2 p3 [e1, e2] fuel with
            | (st3, children, p4) =>
              if da then
                let (e, st4) := mkBoolOr children st3
                (st4, .ok (e, p4))
              else (st3, .ok (e1, p4))
termination_by structural fuel

def pOrLook (cs : List Char) (pos fuel : Nat) : Except Nat Unit :=
  match fuel with
  | 0 => .error pos
  | fuel + 1 =>
    match pAndLevel false cs emptyPState pos fuel with
    | (_, .error l) => .error l
    | (_, .ok (_, p1)) =>
      match pCaseless ['o', 'r'] cs p1 with
      | .error l => .error l
      | .ok p2 =>
        match pAndLevel false cs emptyPState p2 fuel with
        | (_, .error l) => .error l
        | (_, .ok _) => .ok ()
termination_by structural fuel

def pOrMore (da : Bool) (cs : List Char) (st : PState) (pos : Nat)
    (acc : List Expr) (fuel : Nat) : PState × List Expr × Nat :=
  match fuel with
  | 0 => (st, acc, pos)
  | fuel + 1 =>
    match pCaseless ['o', 'r'] cs pos with
    | .error _ => (st, acc, pos)
    | .ok p1 =>
      match pAndLevel da cs st p1 fuel with
      | (st1, .error _) => (st1, acc, pos)
      | (st1, .ok (e, p2)) => pOrMore da cs st1 p2 (acc ++ [e]) fuel
termination_by structural fuel

def pAndLevel (da : Bool) (cs : List Char) (st : PState) (pos fuel : Nat) :
    PState × Except Nat (Expr × Nat) :=
  match fuel with
  | 0 => (st, .error pos)
  | fuel + 1 =>
    match pTryMatchAnd da cs st pos fuel with
    | (st1, .ok r) => (st1, .ok r)
    | (st1, .error l1) =>
      match pNotLevel da cs st1 pos fuel with
      | (st2, .ok r) => (st2, .ok r)
      | (st2, .error l2) => (st2, .error (Nat.max l1 l2))
termination_by structural fuel

def pTryMatchAnd (da : Bool) (cs : List Char) (st : PState) (pos fuel : Nat) :
    PState × Except Nat (Expr × Nat) :=
  match fuel with
  | 0 => (st, .error pos)
  | fuel + 1 =>
    match pAndLook cs pos fuel with
    | .error l => (st, .error l)
    | .ok _ =>
      match pNotLevel da cs st pos fuel with
      | (st1, .error l) => (st1, .error l)
      | (st1, .ok (e1, p1)) =>
        match pCaseless ['a', 'n', 'd'] cs p1 with
        | .error l => (st1, .error l)
        | .ok p2 =>
          match pNotLevel da cs st1 p2 fuel with
          | (st2, .error l) => (st2, .error l)
          | (st2, .ok (e2, p3)) =>
            match pAndMore da cs st2 p3 [e1, e2] fuel with
            | (st3, children, p4) =>
              if da then
                let (e, st4) := mkBoolAnd children st3
                (st4, .ok (e, p4))
              else (st3, .ok (e1, p4))
termination_by structural fuel

def pAndLook (cs : List Char) (pos fuel : Nat) : Except Nat Unit :=
  match fuel with
  | 0 => .error pos
  | fuel + 1 =>
    match pNotLevel false cs emptyPState pos fuel with
    | (_, .error l) => .error l
    | (_, .ok (_, p1)) =>
      match pCaseless ['a', 'n', 'd'] cs p1 with
      | .error l => .error l
      | .ok p2 =>
        match pNotLevel false cs emptyPState p2 fuel with
        | (_, .error l) => .error l
        | (_, .ok _) => .ok ()
termination_by structural fuel

def pAndMore (da : Bool) (cs : List Char) (st : PState) (pos : Nat)
    (acc : List Expr) (fuel : Nat) : PState × List Expr × Nat :=
  match fuel with
  | 0 => (st, acc, pos)
  | fuel + 1 =>
    match pCaseless ['a', 'n', 'd'] cs pos with
    | .error _ => (st, acc, pos)
    | .ok p1 =>
      match pNotLevel da cs st p1 fuel with
      | (st1, .error _) => (st1, acc, pos)
      | (st1, .ok (e, p2)) => pAndMore da cs st1 p2 (acc ++ [e]) fuel
termination_by structural fuel

def pNotLevel (da : Bool) (cs : List Char) (st : PState) (pos fuel : Nat) :
    PState × Except Nat (Expr × Nat) :=
  match fuel with
  | 0 => (st, .error pos)
  | fuel + 1 =>
    match pTryMatchNot da cs st pos fuel with
    | (st1, .ok r) => (st1, .ok r)
    | (st1, .error l1) =>
      match pLastExpr da cs st1 pos fuel with
      | (st2, .ok r) => (st2, .ok r)
      | (st2, .error l2) => (st2, .error (Nat.max l1 l2))
termination_by structural fuel

def pTryMatchNot (da : Bool) (cs : List Char) (st : PState) (pos fuel : Nat) :
    PState × Except Nat (Expr × Nat) :=
  match fuel with
  | 0 => (st, .error pos)
  | fuel + 1 =>
    match pNotLook cs pos fuel with
    | .error l => (st, .error l)
    | .ok _ =>
      match pCaseless ['n', 'o', 't'] cs pos with
      | .error l => (st, .error l)
      | .ok p1 =>
        match pNotLevel da cs st p1 fuel with
        | (st1, .error l) => (st1, .error l)
        | (st1, .ok (e, p2)) =>
          if da then
            let (e', st2) := mkBoolNot e st1
            (st2, .ok (e', p2))
          else (st1, .ok (e, p2))
termination_by structural fuel

def pNotLook (cs : List Char) (pos fuel : Nat) : Except Nat Unit :=
  match fuel with
  | 0 => .error pos
  | fuel + 1 =>
    match pCaseless ['n', 'o', 't'] cs pos with
    | .error l => .error l
    | .ok p1 =>
      match pNotLevel false cs emptyPState p1 fuel with
      | (_, .error l) => .error l
      | (_, .ok _) => .ok ()
termination_by structural fuel

def pLastExpr (da : Bool) (cs : List Char) (st : PState) (pos fuel : Nat) :
    PState × Except Nat (Expr × Nat) :=
  match fuel with
  | 0 => (st, .error pos)
  | fuel + 1 =>
    match pWherecond da cs st pos with
    | (st1, .ok r) => (st1, .ok r)
    | (st1, .error l1) =>
      match pParen da cs st1 pos fuel with
      | (st2, .ok r) => (st2, .ok r)
      | (st2, .error l2) => (st2, .error (Nat.max l1 l2))
termination_by structural fuel

def pParen (da : Bool) (cs : List Char) (st : PState) (pos fuel : Nat) :
    PState × Except Nat (Expr × Nat) :=
  match fuel with
  | 0 => (st, .error pos)
  | fuel + 1 =>
    match pCharTok '(' cs pos with
    | .error l => (st, .error l)
    | .ok p1 =>
      match pOrLevel da cs st p1 fuel with
      | (st1, .error l) => (st1, .error l)
      | (st1, .ok (e, p2)) =>
        match pCharTok ')' cs p2 with
        | .error l => (st1, .error l)
        | .ok p3 => (st1, .ok (e, p3))
termination_by structural fuel

end

/-- `expression_parser.parseString(s)` (without `parseAll`, exactly as
`parse_boolean_search` calls it: a valid prefix suffices and trailing
text is ignored), starting from freshly reset module globals. -/
def runParser (s : String) : PState × Except Nat (Expr × Nat) :=
  let cs := s.toList
  pOrLevel true cs emptyPState 0 (16 * (cs.length + 2))

/-- Index of the last newline strictly before `loc`
(`strg.rfind("\n", 0, loc)` as an `Option`). -/
def lastNlBefore (cs : List Char) (loc : Nat) : Option Nat :=
  (((cs.take loc).enum.filter (fun q => q.2 == '\n')).map Prod.fst).getLast?

/-- pyparsing's `col(loc, strg)`: the 1-based column of `loc`. -/
def pyCol (s : String) (loc : Nat) : Nat :=
  let cs := s.toList
  if 0 < loc ∧ loc < cs.length ∧ cs.get? (loc - 1) = some '\n' then 1
  else
    match lastNlBefore cs loc with
    | none => loc + 1
    | some i => loc - i

def dedupFirstAux : List String → List String → List String
  | [], _ => []
  | x :: xs, seen =>
      if seen.contains x then dedupFirstAux xs seen
      else x :: dedupFirstAux xs (x :: seen)

/-- `list(set(uniqueparams))`, modelled with first-occurrence order
(CPython leaves the order of a `set` unspecified). -/
def dedupFirst (l : List String) : List String := dedupFirstAux l []

/-- What `parse_boolean_search` returns on success: the root element
object, with the module's `params`, deduplicated `uniqueparams` and
`functions` attached to it as attributes. -/
structure ParseResult where
  root : Expr
  params : List (String × String)
  uniqueparams : List String
  functions : List FxnCondition
deriving Repr

/-- `parse_boolean_search(boolean_search)`.  The incoming module-global
state `g` is reset to fresh empty collections before parsing; a
`ParseException` is re-raised as
`BooleanSearchException("Syntax error at offset %(offset)s." % e.col)`.
The returned pair is (call result, module-global state after the
call). -/
def parse_boolean_search (s : String) (g : PState) :
    Except PyErr ParseResult × PState :=
  match runParser s with
  | (st1, .error l) => (.error (.syntaxError (pyCol s l)), st1)
  | (st1, .ok (e, _)) =>
      (.ok { root := e, params := st1.params,
             uniqueparams := dedupFirst st1.uniqueparams,
             functions := st1.functions }, st1)

/-! ## Value coercion (`bindAndLowerValue`) -/

/-- Python whitespace stripped by `int(str)` / `float(str)`. -/
def isPyStripWs (c : Char) : Bool :=
  c == ' ' || c == '\t' || c == '\n' || c == '\r' ||
  c == '\x0b' || c == '\x0c'

def stripPyWs (cs : List Char) : List Char :=
  ((cs.dropWhile isPyStripWs).reverse.dropWhile isPyStripWs).reverse

def digitsToNat (cs : List Char) : Option Nat :=
  if cs.isEmpty || !(cs.all Char.isDigit) then none
  else some (cs.foldl (fun n c => 10 * n + (c.toNat - '0'.toNat)) 0)

/-- Python 2 `int(s)` on a string: optional sign, then decimal digits
(surrounding whitespace allowed); `None` when it raises `ValueError`. -/
def pyInt (s : String) : Option Int :=
  match stripPyWs s.toList with
  | '+' :: ds => (digitsToNat ds).map Int.ofNat
  | '-' :: ds => (digitsToNat ds).map (fun n => -(n : Int))
  | ds => (digitsToNat ds).map Int.ofNat

/-- Whether Python `float(s)` succeeds: optional sign, then a finite
form `digits [. digits] | . digits` with an optional exponent, or one
of the special spellings `inf`, `infinity`, `nan` (case-insensitive). -/
def pyFloatOk (s : String) : Bool :=
  let cs := (stripPyWs s.toList).map Char.toLower
  let body := match cs with
    | '+' :: rest => rest
    | '-' :: rest => rest
    | rest => rest
  let finite : Bool :=
    let ip := body.takeWhile Char.isDigit
    let rest1 := body.drop ip.length
    let (okMantissa, rest2) :=
      match rest1 with
      | '.' :: tl =>
          let fp := tl.takeWhile Char.isDigit
          (!(ip.isEmpty && fp.isEmpty), tl.drop fp.length)
      | _ => (!ip.isEmpty, rest1)
    if !okMantissa then false
    else
      match rest2 with
      | [] => true
      | 'e' :: tl =>
          let tl2 := match tl with
            | '+' :: r => r
            | '-' :: r => r
            | r => r
          !tl2.isEmpty && tl2.all Char.isDigit
      | _ => false
  finite || body == ['i', 'n', 'f'] ||
    body == ['i', 'n', 'f', 'i', 'n', 'i', 't', 'y'] ||
    body == ['n', 'a', 'n']

/-- `value.replace('*', '%')`. -/
def starToPercent (s : String) : String :=
  String.mk (s.toList.map (fun c => if c == '*' then '%' else c))

/-! ## Schema model

A `Model` stands for a DataModelClass: a `__tablename__` and the
class attributes that `getattr` can find.  An attribute (`FieldObj`)
may fail to be a usable column: reading `.type` / `.ilike` on it then
raises `AttributeError`, which the probing loop in `Condition.filter`
catches (`ftype = none` / `hasIlike = false` model that, covering
both a missing attribute and a `None`-valued one, which the loop's
truthiness test treats alike). -/

structure FieldObj where
  owner : String
  fname : String
  ftype : Option SqlFieldType
  hasIlike : Bool
deriving DecidableEq, Repr

structure Model where
  tablename : String
  fields : List (String × FieldObj)
deriving DecidableEq, Repr

/-- `getattr(DataModelClass, field_name, None)`. -/
def Model.attr (M : Model) (n : String) : Option FieldObj :=
  (M.fields.find? (fun p => p.1 == n)).map Prod.snd

/-- `b in tablename` (Python substring test). -/
def substrIn (b : String) (t : String) : Bool :=
  (List.range (t.toList.length + 1)).any
    (fun i => (t.toList.drop i).take b.toList.length == b.toList)

/-- `get_field(DataModelClass, field_name, base_name)`.  A present but
empty base name is falsy in Python, so it takes the flat branch. -/
def get_field (M : Model) (fieldName : String) (baseName : Option String) :
    Option FieldObj :=
  match baseName with
  | some b =>
      if b.isEmpty then M.attr fieldName
      else if substrIn b M.tablename then M.attr fieldName
      else none
  | none => M.attr fieldName

/-- The input `Condition.filter` receives: one DataModelClass, or a
list of them (a module argument is reduced by `inspect.getmembers` to
the list of its model classes, so the list case covers it). -/
inductive ModelInput where
  | one : Model → ModelInput
  | many : List Model → ModelInput

/-- `Condition.bindAndLowerValue(field)`: coerce the raw value by the
column's `python_type` (`float()` for Float and Decimal columns,
`int()` for Integer columns, raising `BooleanSearchException` when the
coercion fails) and produce `(lower_field, lower_value)`; columns of
any other python type get `func.lower` applied to both the column and
the bound parameter. -/
def Condition.bindAndLowerValue (c : Condition) (f : FieldObj) :
    Except PyErr (SqlExpr × SqlExpr) :=
  match f.ftype with
  | none => .error (.attrErr "type")
  | some t =>
    let fld := SqlExpr.field f.owner f.fname
    match t.pythonType with
    | .floatT | .decimalT =>
        if pyFloatOk c.value then
          .ok (fld, .bind c.bindname (.floatOf c.value))
        else
          .error (.booleanSearch ("Field " ++ c.name ++
            " expects a float value. Received value " ++ c.value ++
            " instead."))
    | .intT =>
        match pyInt c.value with
        | some n => .ok (fld, .bind c.bindname (.intV n))
        | none =>
          .error (.booleanSearch ("Field " ++ c.name ++
            " expects an integer value. Received value " ++ c.value ++
            " instead."))
    | _ =>
        .ok (.lower fld, .lower (.bind c.bindname (.strV c.value)))

/-- `Condition.filter_one(DataModelClass, field, condition=None)`:
array columns use `field.any`; otherwise the operator chain produces
the comparison, where the `'='` branch pattern-matches only String
family columns (`ilike` with `*` → `%`, or a both-sides-wildcarded
contains pattern) and otherwise evaluates the undefined name
`boundvalue` — a genuine `NameError` in the source. -/
def Condition.filter_one (c : Condition) (M : Model)
    (field : Option FieldObj) : Except PyErr (Option SqlCond) :=
  match field with
  | none => .ok none
  | some f => do
    let (lf, lv) ← c.bindAndLowerValue f
    if f.ftype == some .array then
      .ok (some (.anyC f.owner f.fname c.value (opdictGet c.op)))
    else if c.op == "==" then .ok (some (.eqC lf lv))
    else if c.op == "<" then .ok (some (.ltC lf lv))
    else if c.op == "<=" then .ok (some (.leC lf lv))
    else if c.op == ">" then .ok (some (.gtC lf lv))
    else if c.op == ">=" then .ok (some (.geC lf lv))
    else if c.op == "!=" then .ok (some (.neC lf lv))
    else if c.op == "=" then
      if f.ftype == some .text then
        match M.attr c.name with
        | none => .error (.attrErr c.name)
        | some f2 =>
          let fld2 := SqlExpr.field f2.owner f2.fname
          if c.value.toList.contains '*' then
            .ok (some (.ilike fld2
              (.bind c.bindname (.strV (starToPercent c.value)))))
          else
            .ok (some (.ilike fld2
              (.concat (.concat (.lit "%")
                 (.bind c.bindname (.strV c.value))) (.lit "%"))))
      else .error (.nameErr "boundvalue")
    else .ok none

/-- Whether the probing loop accepts a candidate: the attribute exists
and reading `field.type` and `field.ilike` succeeded with truthy
results. -/
def fieldUsable : Option FieldObj → Bool
  | none => false
  | some f => f.ftype.isSome && f.hasIlike

/-- The `for i, model in enumerate(models)` probing loop: stop at the
first usable field (returning its index); otherwise fall off the end
retaining the last probed attribute, `index = None` and the last
model. -/
def probeModels (c : Condition) : List Model → Option FieldObj × Bool × Model
  | [] => (none, false, ⟨"", []⟩)   -- unreachable: filter guards non-empty
  | [m] =>
      let f := get_field m c.name c.basename
      (f, fieldUsable f, m)
  | m :: m2 :: rest =>
      let f := get_field m c.name c.basename
      if fieldUsable f then (f, true, m)
      else probeModels c (m2 :: rest)

/-- `Condition.filter(DataModelClass)`.  List input: probe the models
in order; if the loop ends with `field` still `None` the code raises
the unknown-field `BooleanSearchException` naming the *last* probed
model, but if the last probed attribute exists without being usable it
instead evaluates `models[None]` — a `TypeError`.  An empty list is
falsy, so it is treated as a single model class and blows up reading
`__tablename__` on a list.  Single-model input: a flat `get_field`
(the base name is not forwarded), with the unknown-field error on a
missing attribute. -/
def Condition.filter (c : Condition) : ModelInput → Except PyErr (Option SqlCond)
  | .many ms =>
      if ms.isEmpty then .error (.attrErr "__tablename__")
      else
        match probeModels c ms with
        | (none, _, lastM) =>
            .error (.booleanSearch ("Table '" ++ lastM.tablename ++
              "' does not have a field named '" ++ c.name ++ "'."))
        | (some f, true, m) => c.filter_one m (some f)
        | (some _, false, _) =>
            .error (.typeErr "list indices must be integers, not NoneType")
  | .one M =>
      match get_field M c.name none with
      | some f => c.filter_one M (some f)
      | none =>
          .error (.booleanSearch ("Table '" ++ M.tablename ++
            "' does not have a field named '" ++ c.name ++ "'."))

mutual

/-- `filter` over the whole tree: `FxnCondition.filter` returns
`None`; `BoolNot.filter` returns `not_(child.filter(..))` unless the
child is a `FxnCondition` (then `None`); `BoolAnd.filter` /
`BoolOr.filter` compile their non-function children in order and wrap
them in `and_` / `or_`. -/
def filterExpr : Expr → ModelInput → Except PyErr (Option SqlCond)
  | .cond c, M => c.filter M
  | .fxn _, _ => .ok none
  | .notE e, M =>
      if e.isFxn then .ok none
      else (filterExpr e M).map (fun r => some (.notC r))
  | .andE cs, M => (filterChildren cs M).map (fun rs => some (.andC rs))
  | .orE cs, M => (filterChildren cs M).map (fun rs => some (.orC rs))

def filterChildren : List Expr → ModelInput → Except PyErr (List (Option SqlCond))
  | [], _ => .ok []
  | e :: es, M =>
      if e.isFxn then filterChildren es M
      else do
        let r ← filterExpr e M
        let rs ← filterChildren es M
        .ok (r :: rs)

end

/-! ## Claim theorems -/

/-- C1: the expression parser honors the precedence `not > and > or`
with the spec's associativities: `"a==1 or b==2 and c==3"` parses to
an Or node whose children are the leaf `a==1` and an And node over
`b==2` and `c==3`, and `"a==1 or b==2 and not c==3"` parses to
`or(a==1, and(b==2, not(c==3)))`. -/
theorem C1_precedence (g : PState) :
    ((parse_boolean_search "a==1 or b==2 and c==3" g).1.map ParseResult.root =
      Except.ok (.orE [
        .cond ⟨"a", none, "a", "==", "1", "a"⟩,
        .andE [.cond ⟨"b", none, "b", "==", "2", "b"⟩,
               .cond ⟨"c", none, "c", "==", "3", "c"⟩]])) ∧
    ((parse_boolean_search "a==1 or b==2 and not c==3" g).1.map ParseResult.root =
      Except.ok (.orE [
        .cond ⟨"a", none, "a", "==", "1", "a"⟩,
        .andE [.cond ⟨"b", none, "b", "==", "2", "b"⟩,
               .notE (.cond ⟨"c", none, "c", "==", "3", "c"⟩)]])) :=
  ⟨rfl, rfl⟩

/-- C10: parsing a single comparison returns the bare `Condition`
leaf itself (no boolean wrapper), with the parameter map, the
deduplicated full-name list and the (empty) function list attached. -/
theorem C10_bare_leaf (g : PState) :
    (parse_boolean_search "x==1" g).1 =
      Except.ok { root := .cond ⟨"x", none, "x", "==", "1", "x"⟩,
                  params := [("x", "1")],
                  uniqueparams := ["x"],
                  functions := [] } :=
  rfl

/-- C2 counterexample: in `"x==1 and x==2 and x==3"` the third
occurrence of `x` receives bind name `"x_1"` again (not `"x_2"` as the
claim states), colliding with the second occurrence. -/
theorem C2_counterexample :
    ((parse_boolean_search "x==1 and x==2 and x==3" emptyPState).1.map
        ParseResult.root =
      Except.ok (.andE [
        .cond ⟨"x", none, "x", "==", "1", "x"⟩,
        .cond ⟨"x", none, "x", "==", "2", "x_1"⟩,
        .cond ⟨"x", none, "x", "==", "3", "x_1"⟩])) ∧
    ("x_1" : String) ≠ "x_2" :=
  ⟨rfl, by decide⟩

theorem keysCount_eq_one_of_mem {d : List (String × String)} {k : String}
    (h : (d.map Prod.fst).Nodup) (hm : dictMem d k = true) :
    keysCount d k = 1 := by
  have hk : k ∈ d.map Prod.fst := by
    simp only [dictMem, List.any_eq_true, beq_iff_eq] at hm
    obtain ⟨p, hp, he⟩ := hm
    exact List.mem_map.mpr ⟨p, hp, he⟩
  simpa [keysCount] using List.count_eq_one_of_mem h hk

/-- C2 amended: on first occurrence of a full name the bind name is
the full name itself; on every repeated occurrence it is
`full name ++ "_1"` — the suffix counts the full name among the keys
of the `params` dict, which (keys being unique) is always `1` once
present — so `"x>=1 and x<=10"` gets bind names `x` and `x_1`, but a
third and any later comparison on the same name collide on `_1`. -/
theorem C2_amended (fullname op v : String) (st : PState)
    (h : (st.params.map Prod.fst).Nodup) :
    ((mkCondition fullname op v st).1.bindname =
      if dictMem st.params fullname then fullname ++ "_" ++ "1"
      else fullname) ∧
    ((parse_boolean_search "x>=1 and x<=10" emptyPState).1.map
        ParseResult.root =
      Except.ok (.andE [
        .cond ⟨"x", none, "x", ">=", "1", "x"⟩,
        .cond ⟨"x", none, "x", "<=", "10", "x_1"⟩])) := by
  refine ⟨?_, rfl⟩
  by_cases hm : dictMem st.params fullname
  · have h1 : (toString (1 : Nat)) = "1" := rfl
    simp [mkCondition, hm, keysCount_eq_one_of_mem h hm, h1]
  · simp [mkCondition, hm]

/-- C2 amended, witness: a state already holding `x` produces bind
name `x_1` for the next occurrence of `x`. -/
theorem C2_amended_witness :
    ((mkCondition "x" "==" "5" ⟨[("x", "1")], ["x"], []⟩).1.bindname =
      if dictMem [("x", "1")] "x" then "x" ++ "_" ++ "1" else "x") ∧
    ((parse_boolean_search "x>=1 and x<=10" emptyPState).1.map
        ParseResult.root =
      Except.ok (.andE [
        .cond ⟨"x", none, "x", ">=", "1", "x"⟩,
        .cond ⟨"x", none, "x", "<=", "10", "x_1"⟩])) :=
  C2_amended "x" "==" "5" ⟨[("x", "1")], ["x"], []⟩ (by decide)

/-- A model with one text (String-family) column `f`. -/
def tTextModel : Model := ⟨"t", [("f", ⟨"t", "f", some .text, true⟩)]⟩

/-- A model with one Integer column `age`. -/
def tIntModel : Model := ⟨"t", [("age", ⟨"t", "age", some .integer, true⟩)]⟩

/-- A model with one Float column `age`. -/
def tFloatModel : Model := ⟨"t", [("age", ⟨"t", "age", some .float, true⟩)]⟩

/-- A model with one Decimal column `age`. -/
def tDecimalModel : Model := ⟨"t", [("age", ⟨"t", "age", some .decimal, true⟩)]⟩

/-- A model with one Boolean column `flag` (neither text-like, nor
numeric, nor array). -/
def tBoolModel : Model := ⟨"t", [("flag", ⟨"t", "flag", some .boolean, true⟩)]⟩

/-- C3: on a text column the two equality operators are asymmetric:
`==` compiles to case-folded exact equality, while `=` compiles to a
case-insensitive `ilike` pattern — the value with `*` replaced by `%`
when a `*` is present, else the value wrapped in `%`…`%` (contains);
so `f=foo` is "contains foo", `f=foo*` is "starts with foo"
(pattern `foo%`), and `f=*foo` is "ends with foo" (pattern `%foo`). -/
theorem C3_wildcard_asymmetry (v bn : String) :
    (Condition.filter ⟨"f", none, "f", "=", v, bn⟩ (.one tTextModel) =
      if v.toList.contains '*' then
        .ok (some (.ilike (.field "t" "f")
          (.bind bn (.strV (starToPercent v)))))
      else
        .ok (some (.ilike (.field "t" "f")
          (.concat (.concat (.lit "%") (.bind bn (.strV v))) (.lit "%"))))) ∧
    (Condition.filter ⟨"f", none, "f", "==", v, bn⟩ (.one tTextModel) =
      .ok (some (.eqC (.lower (.field "t" "f"))
        (.lower (.bind bn (.strV v)))))) ∧
    (Condition.filter ⟨"f", none, "f", "=", "foo", "f"⟩ (.one tTextModel) =
      .ok (some (.ilike (.field "t" "f")
        (.concat (.concat (.lit "%") (.bind "f" (.strV "foo"))) (.lit "%"))))) ∧
    (Condition.filter ⟨"f", none, "f", "=", "foo*", "f"⟩ (.one tTextModel) =
      .ok (some (.ilike (.field "t" "f") (.bind "f" (.strV "foo%"))))) ∧
    (Condition.filter ⟨"f", none, "f", "=", "*foo", "f"⟩ (.one tTextModel) =
      .ok (some (.ilike (.field "t" "f") (.bind "f" (.strV "%foo"))))) :=
  ⟨rfl, rfl, rfl, rfl, rfl⟩

/-- C4: on a column that is neither text-like nor numeric nor array,
`flag=1` does not fall back to a plain equality — the `'='` branch
evaluates the undefined local `boundvalue` and raises `NameError`;
`flag==1` does succeed (with `func.lower` applied to both sides). -/
theorem C4_fallback_bug :
    (Condition.filter ⟨"flag", none, "flag", "=", "1", "flag"⟩
        (.one tBoolModel) = .error (.nameErr "boundvalue")) ∧
    (Condition.filter ⟨"flag", none, "flag", "==", "1", "flag"⟩
        (.one tBoolModel) =
      .ok (some (.eqC (.lower (.field "t" "flag"))
        (.lower (.bind "flag" (.strV "1")))))) :=
  ⟨rfl, rfl⟩

/-- C5 counterexample: `age=30` on an Integer column coerces `30`
successfully, yet no comparison predicate is emitted — the `'='`
branch raises `NameError` on the undefined `boundvalue`. -/
theorem C5_counterexample :
    pyInt "30" = some 30 ∧
    Condition.filter ⟨"age", none, "age", "=", "30", "age"⟩
        (.one tIntModel) = .error (.nameErr "boundvalue") :=
  ⟨rfl, rfl⟩

theorem except_bind_ok {ε α β : Type} (a : α) (f : α → Except ε β) :
    (Except.ok a >>= f) = f a := rfl

theorem except_bind_error {ε α β : Type} (e : ε) (f : α → Except ε β) :
    ((Except.error e : Except ε α) >>= f) = .error e := rfl

/-- C5 amended: on a numeric column, compilation raises the
type-mismatch `BooleanSearchException` exactly when the coercion
(`int()` for Integer, `float()` for Float and Decimal) fails, for
every operator; when the coercion succeeds, every operator except the
bare `'='` emits the comparison against the bound coerced value with
no case-folding, while `'='` instead raises the `NameError` of the
undefined `boundvalue` (cf. C4); `age==abc` on an Integer column
fails and `age==30` binds integer `30`. -/
theorem C5_amended :
    (∀ v bn op, op ∈ (["==", "<", "<=", ">", ">=", "!=", "="] : List String) →
      pyInt v = none →
      Condition.filter ⟨"age", none, "age", op, v, bn⟩ (.one tIntModel) =
        .error (.booleanSearch ("Field age expects an integer value. Received value "
          ++ v ++ " instead."))) ∧
    (∀ v bn op, op ∈ (["==", "<", "<=", ">", ">=", "!=", "="] : List String) →
      pyFloatOk v = false →
      (Condition.filter ⟨"age", none, "age", op, v, bn⟩ (.one tFloatModel) =
        .error (.booleanSearch ("Field age expects a float value. Received value "
          ++ v ++ " instead."))) ∧
      (Condition.filter ⟨"age", none, "age", op, v, bn⟩ (.one tDecimalModel) =
        .error (.booleanSearch ("Field age expects a float value. Received value "
          ++ v ++ " instead.")))) ∧
    (∀ v bn n, pyInt v = some n →
      (Condition.filter ⟨"age", none, "age", "==", v, bn⟩ (.one tIntModel) =
        .ok (some (.eqC (.field "t" "age") (.bind bn (.intV n))))) ∧
      (Condition.filter ⟨"age", none, "age", "<", v, bn⟩ (.one tIntModel) =
        .ok (some (.ltC (.field "t" "age") (.bind bn (.intV n))))) ∧
      (Condition.filter ⟨"age", none, "age", "<=", v, bn⟩ (.one tIntModel) =
        .ok (some (.leC (.field "t" "age") (.bind bn (.intV n))))) ∧
      (Condition.filter ⟨"age", none, "age", ">", v, bn⟩ (.one tIntModel) =
        .ok (some (.gtC (.field "t" "age") (.bind bn (.intV n))))) ∧
      (Condition.filter ⟨"age", none, "age", ">=", v, bn⟩ (.one tIntModel) =
        .ok (some (.geC (.field "t" "age") (.bind bn (.intV n))))) ∧
      (Condition.filter ⟨"age", none, "age", "!=", v, bn⟩ (.one tIntModel) =
        .ok (some (.neC (.field "t" "age") (.bind bn (.intV n))))) ∧
      (Condition.filter ⟨"age", none, "age", "=", v, bn⟩ (.one tIntModel) =
        .error (.nameErr "boundvalue"))) ∧
    (∀ v bn, pyFloatOk v = true →
      (Condition.filter ⟨"age", none, "age", "==", v, bn⟩ (.one tFloatModel) =
        .ok (some (.eqC (.field "t" "age") (.bind bn (.floatOf v))))) ∧
      (Condition.filter ⟨"age", none, "age", "==", v, bn⟩ (.one tDecimalModel) =
        .ok (some (.eqC (.field "t" "age") (.bind bn (.floatOf v)))))) ∧
    (Condition.filter ⟨"age", none, "age", "==", "abc", "age"⟩ (.one tIntModel) =
      .error (.booleanSearch
        "Field age expects an integer value. Received value abc instead.")) ∧
    (Condition.filter ⟨"age", none, "age", "==", "30", "age"⟩ (.one tIntModel) =
      .ok (some (.eqC (.field "t" "age") (.bind "age" (.intV 30))))) := by
  refine ⟨?_, ?_, ?_, ?_, rfl, rfl⟩
  · intro v bn op hop hv
    fin_cases hop <;>
      simp [Condition.filter, Condition.filter_one, Condition.bindAndLowerValue,
        get_field, Model.attr, tIntModel, SqlFieldType.pythonType, hv,
        except_bind_ok, except_bind_error]
  · intro v bn op hop hv
    fin_cases hop <;>
      exact ⟨by simp [Condition.filter, Condition.filter_one,
          Condition.bindAndLowerValue, get_field, Model.attr, tFloatModel,
          SqlFieldType.pythonType, hv, except_bind_ok, except_bind_error],
        by simp [Condition.filter, Condition.filter_one,
          Condition.bindAndLowerValue, get_field, Model.attr, tDecimalModel,
          SqlFieldType.pythonType, hv, except_bind_ok, except_bind_error]⟩
  · intro v bn n hv
    refine ⟨?_, ?_, ?_, ?_, ?_, ?_, ?_⟩ <;>
      simp [Condition.filter, Condition.filter_one, Condition.bindAndLowerValue,
        get_field, Model.attr, tIntModel, SqlFieldType.pythonType, hv,
        except_bind_ok, except_bind_error]
  · intro v bn hv
    exact ⟨by simp [Condition.filter, Condition.filter_one,
        Condition.bindAndLowerValue, get_field, Model.attr, tFloatModel,
        SqlFieldType.pythonType, hv, except_bind_ok, except_bind_error],
      by simp [Condition.filter, Condition.filter_one,
        Condition.bindAndLowerValue, get_field, Model.attr, tDecimalModel,
        SqlFieldType.pythonType, hv, except_bind_ok, except_bind_error]⟩

/-- C5 amended, witness at concrete inputs: `age==abc` raises the
type-mismatch error and `age<30` emits the bound comparison. -/
theorem C5_amended_witness :
    (Condition.filter ⟨"age", none, "age", "==", "abc", "age"⟩ (.one tIntModel) =
      .error (.booleanSearch ("Field age expects an integer value. Received value "
        ++ "abc" ++ " instead."))) ∧
    (Condition.filter ⟨"age", none, "age", "<", "30", "age"⟩ (.one tIntModel) =
      .ok (some (.ltC (.field "t" "age") (.bind "age" (.intV 30))))) :=
  ⟨C5_amended.1 "abc" "age" "==" (by simp) rfl,
   (C5_amended.2.2.1 "30" "age" 30 rfl).2.1⟩

/-- A model whose class has no attribute named `f`. -/
def m1NoField : Model := ⟨"m1", []⟩

/-- A model whose attribute `f` exists but is not a usable column
(reading `.type` / `.ilike` fails, as for a plain method or class
attribute). -/
def m2PlainAttr : Model := ⟨"m2", [("f", ⟨"m2", "f", none, false⟩)]⟩

/-- C6 counterexample: with owners `[m1NoField, m2PlainAttr]` no
owner resolves `f`, yet compilation does not raise the unknown-field
error — the loop leaves `index = None` (the last probed attribute is
not `None`), so `models[index]` raises a `TypeError` instead. -/
theorem C6_counterexample :
    (Condition.filter ⟨"f", none, "f", "==", "1", "f"⟩
        (.many [m1NoField, m2PlainAttr]) =
      .error (.typeErr "list indices must be integers, not NoneType")) ∧
    PyErr.typeErr "list indices must be integers, not NoneType" ≠
      PyErr.booleanSearch "Table 'm2' does not have a field named 'f'." :=
  ⟨rfl, by decide⟩

/-- The first supplied owner on which the probe succeeds (the
attribute exists and exposes truthy `.type` and `.ilike`). -/
def firstUsable (c : Condition) : List Model → Option Model
  | [] => none
  | m :: rest =>
      if fieldUsable (get_field m c.name c.basename) then some m
      else firstUsable c rest

theorem filter_many_skip (c : Condition) (m m2 : Model) (rest : List Model)
    (hu : fieldUsable (get_field m c.name c.basename) = false) :
    c.filter (.many (m :: m2 :: rest)) = c.filter (.many (m2 :: rest)) := by
  simp [Condition.filter, probeModels, hu]

/-- C6 amended: owners are probed in order and the predicate is built
against the first owner whose probe succeeds; when no probe succeeds,
the unknown-field `BooleanSearchException` (naming the last probed
owner's table and the field) is raised only if the last owner has no
attribute of that name at all — if the last owner has an unusable
attribute of that name, a `TypeError` from `models[None]` is raised
instead. -/
theorem C6_amended (c : Condition) (ms : List Model) (hne : ms ≠ []) :
    (∀ m, firstUsable c ms = some m →
      c.filter (.many ms) = c.filter_one m (get_field m c.name c.basename)) ∧
    (firstUsable c ms = none →
      ∀ lm, ms.getLast? = some lm →
        (get_field lm c.name c.basename = none →
          c.filter (.many ms) = .error (.booleanSearch ("Table '" ++
            lm.tablename ++ "' does not have a field named '" ++
            c.name ++ "'."))) ∧
        (∀ f, get_field lm c.name c.basename = some f →
          c.filter (.many ms) =
            .error (.typeErr "list indices must be integers, not NoneType"))) := by
  induction ms with
  | nil => exact absurd rfl hne
  | cons m rest ih =>
    by_cases hu : fieldUsable (get_field m c.name c.basename)
    · have hex : ∃ f, get_field m c.name c.basename = some f := by
        cases hf : get_field m c.name c.basename with
        | none => rw [hf] at hu; simp [fieldUsable] at hu
        | some f => exact ⟨f, rfl⟩
      obtain ⟨f, hf⟩ := hex
      have hu' := hu
      rw [hf] at hu'
      constructor
      · intro m' hm'
        have hm : m' = m := by
          simpa [firstUsable, hu] using hm'.symm
        rw [hm, hf]
        cases rest with
        | nil => simp [Condition.filter, probeModels, hf, hu']
        | cons m2 rest2 => simp [Condition.filter, probeModels, hf, hu']
      · intro hnone
        simp [firstUsable, hu] at hnone
    · cases rest with
      | nil =>
        constructor
        · intro m' hm'
          simp [firstUsable, hu] at hm'
        · intro _ lm hlm
          have hm : lm = m := by simpa using hlm.symm
          rw [hm]
          constructor
          · intro hf
            simp [Condition.filter, probeModels, hf]
          · intro f hf
            have hu2 : fieldUsable (some f) = false := by
              rw [hf] at hu
              simpa using hu
            simp [Condition.filter, probeModels, hf, hu2]
      | cons m2 rest2 =>
        have hrw := filter_many_skip c m m2 rest2 (by simpa using hu)
        have ih' := ih (by simp)
        constructor
        · intro m' hm'
          have : firstUsable c (m2 :: rest2) = some m' := by
            simpa [firstUsable, hu] using hm'
          rw [hrw]
          exact ih'.1 m' this
        · intro hnone lm hlm
          have h1 : firstUsable c (m2 :: rest2) = none := by
            simpa [firstUsable, hu] using hnone
          have h2 : (m2 :: rest2).getLast? = some lm := by
            simpa [List.getLast?_cons_cons] using hlm
          constructor
          · intro hf
            rw [hrw]
            exact (ih'.2 h1 lm h2).1 hf
          · intro f hf
            rw [hrw]
            exact (ih'.2 h1 lm h2).2 f hf

/-- C6 amended, witness: with owners `[m1NoField, tTextModel]` the
predicate is built against `tTextModel`, the first owner resolving
`f`. -/
theorem C6_amended_witness :
    Condition.filter ⟨"f", none, "f", "==", "1", "f"⟩
        (.many [m1NoField, tTextModel]) =
      Condition.filter_one ⟨"f", none, "f", "==", "1", "f"⟩ tTextModel
        (get_field tTextModel "f" none) :=
  (C6_amended ⟨"f", none, "f", "==", "1", "f"⟩ [m1NoField, tTextModel]
    (by simp)).1 tTextModel rfl

theorem boolSeqInit_children (items : List Expr) (st : PState) :
    (boolSeqInit items st).1 = items.filter (fun e => !e.isFxn) := by
  induction items generalizing st with
  | nil => simp [boolSeqInit]
  | cons e rest ih => cases e <;> simp [boolSeqInit, Expr.isFxn, ih]

theorem filterChildren_eq_mapM_filter (cs : List Expr) (M : ModelInput) :
    filterChildren cs M =
      (cs.filter (fun e => !e.isFxn)).mapM (fun e => filterExpr e M) := by
  induction cs with
  | nil => simp only [filterChildren, List.filter_nil, List.mapM_nil]; rfl
  | cons e rest ih =>
    by_cases hf : e.isFxn
    · rw [filterChildren, if_pos hf, ih, List.filter_cons]
      simp [hf]
    · rw [filterChildren, if_neg hf, ih, List.filter_cons]
      simp only [hf, Bool.not_false, if_true]
      rw [List.mapM_cons]
      rfl

/-- C7: function-condition leaves never reach the compiled predicate:
their own `filter` is `None`; `BoolNot.filter` over a function-leaf
child is `None`; `BoolAnd`/`BoolOr` drop function leaves both at
construction (they go to the `functions` list instead of the node's
children) and when folding the children's predicates into
`and_`/`or_`. -/
theorem C7_function_leaves (f : FxnCondition) (st : PState) (M : ModelInput)
    (items : List Expr) :
    (filterExpr (.fxn f) M = .ok none) ∧
    (filterExpr ((mkBoolNot (.fxn f) st).1) M = .ok none) ∧
    ((mkBoolAnd items st).1 = .andE (items.filter (fun e => !e.isFxn))) ∧
    ((mkBoolOr items st).1 = .orE (items.filter (fun e => !e.isFxn))) ∧
    (filterExpr (.andE items) M =
      ((items.filter (fun e => !e.isFxn)).mapM (fun e => filterExpr e M)).map
        (fun rs => some (.andC rs))) ∧
    (filterExpr (.orE items) M =
      ((items.filter (fun e => !e.isFxn)).mapM (fun e => filterExpr e M)).map
        (fun rs => some (.orC rs))) := by
  refine ⟨rfl, rfl, ?_, ?_, ?_, ?_⟩
  · simp [mkBoolAnd, boolSeqInit_children]
  · simp [mkBoolOr, boolSeqInit_children]
  · simp [filterExpr, filterChildren_eq_mapM_filter]
  · simp [filterExpr, filterChildren_eq_mapM_filter]

/-- C8 counterexample: `"a==1)"` has an unmatched parenthesis —
a malformed expression — yet the top-level parse succeeds, silently
ignoring the trailing `)` (pyparsing `parseString` without
`parseAll`). -/
theorem C8_counterexample :
    (parse_boolean_search "a==1)" emptyPState).1 =
      Except.ok { root := .cond ⟨"a", none, "a", "==", "1", "a"⟩,
                  params := [("a", "1")],
                  uniqueparams := ["a"],
                  functions := [] } :=
  rfl

/-- C8 amended: when the parser itself fails, the failure is surfaced
to the caller as a `BooleanSearchException` syntax error carrying the
failure's 1-based character column, never swallowed — e.g.
`"field1=="` (missing value) fails at offset 9; but an input whose
malformed part lies after a parsable prefix does not fail at all
(see the counterexample). -/
theorem C8_amended :
    (∀ (s : String) (g st1 : PState) (l : Nat),
      runParser s = (st1, .error l) →
      (parse_boolean_search s g).1 = .error (.syntaxError (pyCol s l))) ∧
    ((parse_boolean_search "field1==" emptyPState).1 =
      .error (.syntaxError 9)) := by
  constructor
  · intro s g st1 l h
    unfold parse_boolean_search
    rw [h]
  · rfl

/-- C8 amended, witness: the parser fails on `"field1=="` at location
8 (column 9), and `parse_boolean_search` surfaces exactly that. -/
theorem C8_amended_witness :
    (parse_boolean_search "field1==" ⟨[("seed", "0")], ["seed"], []⟩).1 =
      .error (.syntaxError (pyCol "field1==" 8)) :=
  C8_amended.1 "field1==" ⟨[("seed", "0")], ["seed"], []⟩ emptyPState 8 rfl

/-- C9: the module-global session state (`params`, `uniqueparams`,
`functions`) is reset at the start of every `parse_boolean_search`
call, so the call's result is independent of the pre-call global
state; in particular parsing `s` after having parsed any `s1` returns
exactly what parsing `s` returns on fresh globals. -/
theorem C9_session_reset (s s1 : String) (g g2 : PState) :
    ((parse_boolean_search s g).1 = (parse_boolean_search s g2).1) ∧
    ((parse_boolean_search s (parse_boolean_search s1 g).2).1 =
      (parse_boolean_search s g).1) :=
  ⟨rfl, rfl⟩
